import Mathlib

/-!
Verification of the release-pipeline specification of the `martin`
repository against its CI workflow, `src/.github/workflows/ci.yml`
(the `docker-build-test` job). The embedding models the four
claim-relevant steps of that job — "Build targets" (lines 76–90),
"Reorganize artifacts for docker build" (lines 98–103), "Ensure ECR
public repository exists" (lines 113–116), and the two
`docker/build-push-action` steps (lines 139–155) — at the level of
directory contents, environment variables, registry state and the shared
image tag. Steps of the job that no claim touches (checkout, caching,
database setup, artifact upload, NGINX, credential configuration,
registry login) are elided; a failed step aborts the job, and each `run`
step executes under `shell: bash`, which GitHub Actions invokes with
`-e -o pipefail`, so the first failing command aborts the step.
-/

namespace Martin

/-! ### Per-architecture RUSTFLAGS environment variables (ci.yml:82)

`export "CARGO_TARGET_$(echo $target | tr 'a-z-' 'A-Z_')_RUSTFLAGS"=...`
derives the variable name from the target triple by uppercasing letters
and mapping `-` to `_`. -/

/-- One character of `tr 'a-z-' 'A-Z_'`: `-` becomes `_`, lowercase
letters are uppercased, everything else is unchanged. -/
def trChar (c : Char) : Char :=
  if c = '-' then '_' else c.toUpper

/-- `echo $target | tr 'a-z-' 'A-Z_'` applied to a triple. -/
def trTarget (s : String) : String :=
  String.mk (s.data.map trChar)

/-- The name of the flags variable for one target triple (ci.yml:82):
`CARGO_TARGET_<tr of triple>_RUSTFLAGS`. -/
def rustflagsVar (target : String) : String :=
  "CARGO_TARGET_" ++ trTarget target ++ "_RUSTFLAGS"

/-- An environment: variable name to optional value. -/
abbrev FlagEnv := String → Option String

/-- The `export` at ci.yml:82: set the flags variable derived from the
triple. -/
def setRustflags (env : FlagEnv) (target value : String) : FlagEnv :=
  fun v => if v = rustflagsVar target then some value else env v

/-- The flags a `cross build` invocation for the given triple reads from
the environment: the value of that triple's derived variable. -/
def readRustflags (env : FlagEnv) (target : String) : Option String :=
  env (rustflagsVar target)

/-! ### Filesystem model

Directory contents only: a map from directory path to the list of file
names in it. A missing directory and an empty directory are both `[]`,
which makes `mkdir -p` a no-op at this level of abstraction and makes a
`dir/*` glob over a missing or empty directory fail identically. -/

/-- Directory path to the file names it contains. -/
abbrev Fs := String → List String

/-- The empty filesystem. -/
def emptyFs : Fs := fun _ => []

/-- A failed step of the job, with enough context to name the step. -/
inductive StepError
  | buildFailed (target pkg : String)
  | mvFailed (src : String)
  | provisionFailed (outcome : String)
  | imageFailed (platform : String)
deriving DecidableEq, Repr

/-- `mv srcDir/name destDir/` for a single named file: fails when the
file is absent; otherwise the file leaves the source directory and
replaces any same-named file in the destination. -/
def mvFile (fs : Fs) (srcDir fileN destDir : String) : Except StepError Fs :=
  if fileN ∈ fs srcDir then
    .ok fun d =>
      if d = destDir then fileN :: (fs destDir).filter (fun f => f ≠ fileN)
      else if d = srcDir then (fs srcDir).filter (fun f => f ≠ fileN)
      else fs d
  else .error (.mvFailed (srcDir ++ "/" ++ fileN))

/-- `mv srcDir/* destDir/`: with no matching file the glob stays literal
and `mv` fails (the shell has no `nullglob` here); otherwise every file
moves to the destination, replacing same-named files there but leaving
other pre-existing destination files in place, and the source directory
is left empty. -/
def mvGlob (fs : Fs) (srcDir destDir : String) : Except StepError Fs :=
  if fs srcDir = [] then .error (.mvFailed (srcDir ++ "/*"))
  else
    .ok fun d =>
      if d = destDir then fs srcDir ++ (fs destDir).filter (fun f => ¬ f ∈ fs srcDir)
      else if d = srcDir then []
      else fs d

/-- Place newly produced files into a directory, replacing same-named
files. -/
def addFiles (fs : Fs) (dir : String) (files : List String) : Fs :=
  fun d => if d = dir then files ++ (fs d).filter (fun f => ¬ f ∈ files) else fs d

/-! ### "Build targets" step (ci.yml:76–90) -/

/-- The binaries a successful `cross build --release --package <pkg>`
leaves in the target's release directory; inferred from the three `mv`
lines at ci.yml:87–89 (`martin` and `martin-cp` from package `martin`,
`mbtiles` from package `mbtiles`). -/
def builtBinaries (pkg : String) : List String :=
  if pkg = "martin" then ["martin", "martin-cp"]
  else if pkg = "mbtiles" then ["mbtiles"]
  else []

/-- `target/<triple>/release`, the toolchain's output directory. -/
def releaseDir (target : String) : String :=
  "target/" ++ target ++ "/release"

/-- `target_releases/<triple>`, the per-triple staging directory created
at ci.yml:86. -/
def stagingDir (target : String) : String :=
  "target_releases/" ++ target

/-- One `cross build` invocation (ci.yml:83–84): the outcome oracle
`buildOk` stands for the external toolchain's exit status; success
leaves the package's binaries in the release directory. -/
def crossBuild (buildOk : String → String → Bool) (fs : Fs)
    (target pkg : String) : Except StepError Fs :=
  if buildOk target pkg then .ok (addFiles fs (releaseDir target) (builtBinaries pkg))
  else .error (.buildFailed target pkg)

/-- The loop targets, in order (ci.yml:78). -/
def jobTargets : List String :=
  ["aarch64-unknown-linux-musl", "x86_64-unknown-linux-musl"]

/-- An observable action of the job: one loop iteration of the build
step reaching its target, the provisioning call, or one image push. -/
inductive Event
  | build (target : String)
  | provision
  | push (platform : String)
deriving DecidableEq, Repr

/-- Whether an event is a build-loop iteration. -/
def Event.isBuild : Event → Bool
  | .build _ => true
  | _ => false

/-- Whether an event is an image push. -/
def Event.isPush : Event → Bool
  | .push _ => true
  | _ => false

/-- One iteration of the build loop body (ci.yml:82–89), under `bash
-e`: export the triple's RUSTFLAGS variable, build `mbtiles` then
`martin`, then move the three binaries into the triple's staging
directory (`mkdir -p` at ci.yml:86 is a contents-level no-op); the first
failing command aborts the iteration. -/
def buildIteration (buildOk : String → String → Bool) (env : FlagEnv)
    (fs : Fs) (target : String) : Except StepError (FlagEnv × Fs) := do
  let env := setRustflags env target "-C strip=debuginfo"
  let fs ← crossBuild buildOk fs target "mbtiles"
  let fs ← crossBuild buildOk fs target "martin"
  let fs ← mvFile fs (releaseDir target) "martin" (stagingDir target)
  let fs ← mvFile fs (releaseDir target) "martin-cp" (stagingDir target)
  let fs ← mvFile fs (releaseDir target) "mbtiles" (stagingDir target)
  return (env, fs)

/-- Result of the build-targets step: the events so far, the shell
environment, the filesystem, and the error that aborted the step, if
any. -/
structure LoopResult where
  events : List Event
  flagEnv : FlagEnv
  fs : Fs
  stepError : Option StepError

/-- The `for target in …` loop (ci.yml:78–90) under `bash -e`: targets
are processed in order and the first failing iteration aborts the step —
the remaining targets are never built. -/
def buildTargetsLoop (buildOk : String → String → Bool) :
    List String → FlagEnv → Fs → List Event → LoopResult
  | [], env, fs, evs =>
      { events := evs, flagEnv := env, fs := fs, stepError := none }
  | t :: ts, env, fs, evs =>
      match buildIteration buildOk env fs t with
      | .ok (env', fs') => buildTargetsLoop buildOk ts env' fs' (evs ++ [.build t])
      | .error e =>
          { events := evs ++ [.build t], flagEnv := env, fs := fs,
            stepError := some e }

/-! ### "Reorganize artifacts for docker build" step (ci.yml:98–103) -/

/-- The reorganize step: `mkdir -p` then `mv target_releases/<triple>/*`
into `target_releases/linux/{arm64,amd64}`, aarch64 first, under `bash
-e` (the second `mv` does not run if the first fails). -/
def reorganizeStep (fs : Fs) : Except StepError Fs := do
  let fs ← mvGlob fs (stagingDir "aarch64-unknown-linux-musl")
    "target_releases/linux/arm64"
  let fs ← mvGlob fs (stagingDir "x86_64-unknown-linux-musl")
    "target_releases/linux/amd64"
  return fs

/-! ### "Ensure ECR public repository exists" step (ci.yml:113–116) -/

/-- Outcomes of the `aws ecr-public create-repository` call: success, or
failure with the error classes the spec distinguishes. -/
inductive CreateOutcome
  | Created
  | AlreadyExists
  | PermissionDenied
  | Quota
  | Network
deriving DecidableEq, Repr

/-- Printable name of a create outcome, for error reports. -/
def CreateOutcome.label : CreateOutcome → String
  | .Created => "Created"
  | .AlreadyExists => "AlreadyExists"
  | .PermissionDenied => "PermissionDenied"
  | .Quota => "Quota"
  | .Network => "Network"

/-- The `describe-repositories || create-repository` step (ci.yml:115–
116): if the describe succeeds (the repository exists) the step
succeeds without creating; otherwise the create runs and the step
succeeds only when the create succeeds — the `||` chain has no error
discrimination, so any create failure, including an already-exists
error from a concurrent creation, fails the step. -/
def ensureRepoStep (repoExists : Bool) (createOutcome : CreateOutcome) :
    Except StepError Bool :=
  if repoExists then .ok true
  else
    match createOutcome with
    | .Created => .ok true
    | oc => .error (.provisionFailed oc.label)

/-! ### Two concurrent "Ensure ECR public repository exists" steps

An interleaving semantics for two concurrent runs of the
`describe || create` step (ci.yml:115–116) against one shared registry:
each caller atomically runs the describe, then — if it saw no
repository — the create. -/

/-- Program counter of one caller: before the describe, after the
describe (recording what it saw), or finished (`true` = step succeeded,
`false` = step failed). -/
inductive CallerPC
  | start
  | checked (sawExists : Bool)
  | done (ok : Bool)
deriving DecidableEq, Repr

/-- Shared state of the two-caller race: whether the repository exists,
how many create calls succeeded, and each caller's pc. -/
structure RaceState where
  repoExists : Bool
  createCount : Nat
  pc : Fin 2 → CallerPC

/-- One atomic action of caller `i` (ci.yml:115–116 semantics): the
describe reads existence; a caller that saw the repository finishes
successfully without creating; a caller that saw none runs the create —
if the repository meanwhile exists the create fails with an
already-exists error and the `||` chain FAILS the step, otherwise the
create succeeds. -/
def raceStep (s : RaceState) (i : Fin 2) : RaceState :=
  match s.pc i with
  | .start => { s with pc := Function.update s.pc i (.checked s.repoExists) }
  | .checked true => { s with pc := Function.update s.pc i (.done true) }
  | .checked false =>
      if s.repoExists then
        { s with pc := Function.update s.pc i (.done false) }
      else
        { repoExists := true, createCount := s.createCount + 1,
          pc := Function.update s.pc i (.done true) }
  | .done _ => s

/-- Initial race state: repository absent, no creates, both callers
before their describe. -/
def raceInit : RaceState :=
  { repoExists := false, createCount := 0, pc := fun _ => .start }

/-- Run the two-caller race under a given interleaving schedule. -/
def raceRun (sched : List (Fin 2)) : RaceState :=
  sched.foldl raceStep raceInit

/-! ### The two docker build-push steps (ci.yml:139–155) -/

/-- One `docker/build-push-action` step with `push: true` and a single
`platforms:` entry: it builds a single-platform image and pushes it to
`public.ecr.aws/s8c6d7p4/martin:latest`, overwriting whatever the tag
pointed to; on success the step yields the platform list of the pushed
image's manifest — just that one platform. Modelled from the spec for
the one part not under src/: the Dockerfile named at ci.yml:143
(`.github/files/multi-platform.Dockerfile`) is not in the sources, so
the image build's dependence on the staging tree follows the spec's §4.4
publisher contract — building a platform whose staging directory is
empty fails; `pushOk` is the oracle for the push's network outcome. -/
def dockerBuildPush (fs : Fs) (pushOk : String → Bool)
    (platform dir : String) : Except StepError (List String) :=
  if fs dir = [] then .error (.imageFailed platform)
  else if pushOk platform then .ok [platform]
  else .error (.imageFailed platform)

/-- The two docker steps in job order (ci.yml:139–146 then 148–155):
arm64 first, then amd64; a failed step aborts the job, and each
successful push overwrites the shared tag. Returns the tag's final
value, the push events, and the aborting error, if any. -/
def dockerPhase (fs : Fs) (pushOk : String → Bool)
    (tag0 : Option (List String)) :
    Option (List String) × List Event × Option StepError :=
  match dockerBuildPush fs pushOk "linux/arm64" "target_releases/linux/arm64" with
  | .error e => (tag0, [], some e)
  | .ok t1 =>
      match dockerBuildPush fs pushOk "linux/amd64" "target_releases/linux/amd64" with
      | .error e => (some t1, [.push "linux/arm64"], some e)
      | .ok t2 => (some t2, [.push "linux/arm64", .push "linux/amd64"], none)

/-! ### The job -/

/-- The oracles the job's external collaborators answer with: toolchain
exit per (triple, package), whether the describe finds the repository,
the create call's outcome, and push outcomes per platform. -/
structure JobConfig where
  buildOk : String → String → Bool
  repoExists : Bool
  createOutcome : CreateOutcome
  pushOk : String → Bool

/-- Observable result of one job run: overall success, the filesystem,
the shared tag's final value (the platform list of the image it
references), the event trace, and the aborting error, if any. -/
structure JobResult where
  success : Bool
  fs : Fs
  tag : Option (List String)
  events : List Event
  stepError : Option StepError

/-- The job's steps after "Build targets": reorganize, ensure the
repository, then the two docker build-push steps, each aborting the job
on failure (ci.yml:98–155, claim-irrelevant steps elided). -/
def afterBuild (cfg : JobConfig) (lr : LoopResult)
    (tag0 : Option (List String)) : JobResult :=
  match lr.stepError with
  | some e =>
      { success := false, fs := lr.fs, tag := tag0, events := lr.events,
        stepError := some e }
  | none =>
      match reorganizeStep lr.fs with
      | .error e =>
          { success := false, fs := lr.fs, tag := tag0, events := lr.events,
            stepError := some e }
      | .ok fs2 =>
          match ensureRepoStep cfg.repoExists cfg.createOutcome with
          | .error e =>
              { success := false, fs := fs2, tag := tag0,
                events := lr.events ++ [.provision], stepError := some e }
          | .ok _ =>
              { success := ((dockerPhase fs2 cfg.pushOk tag0).2.2).isNone,
                fs := fs2,
                tag := (dockerPhase fs2 cfg.pushOk tag0).1,
                events := lr.events ++ [.provision]
                  ++ (dockerPhase fs2 cfg.pushOk tag0).2.1,
                stepError := (dockerPhase fs2 cfg.pushOk tag0).2.2 }

/-- The whole `docker-build-test` job on its claim-relevant steps: the
build loop over both targets, then the later steps. -/
def runJob (cfg : JobConfig) (fs0 : Fs) (tag0 : Option (List String)) :
    JobResult :=
  afterBuild cfg (buildTargetsLoop cfg.buildOk jobTargets (fun _ => none) fs0 [])
    tag0

/-! ### Helpers and concrete scenarios -/

/-- Whether an `Except` result is a success. -/
def resultOk {ε α : Type} : Except ε α → Bool
  | .ok _ => true
  | .error _ => false

/-- The contents of a directory after a filesystem operation; `[]` when
the operation failed. -/
def fsAfter (r : Except StepError Fs) (d : String) : List String :=
  match r with
  | .ok fs => fs d
  | .error _ => []

/-- Whether a filesystem operation failed with an `mv` error. -/
def isMvError : Except StepError Fs → Bool
  | .error (.mvFailed _) => true
  | _ => false

/-- Run the reorganize `mv` for the same source twice in a row. -/
def collectTwice (fs : Fs) (srcDir destDir : String) : Except StepError Fs :=
  match mvGlob fs srcDir destDir with
  | .ok fs' => mvGlob fs' srcDir destDir
  | .error e => .error e

/-- A staging tree with both platform directories populated. -/
def demoStaging : Fs := fun d =>
  if d = "target_releases/linux/arm64" then ["martin", "martin-cp", "mbtiles"]
  else if d = "target_releases/linux/amd64" then ["martin", "martin-cp", "mbtiles"]
  else []

/-- A staging tree with only the arm64 platform populated. -/
def armOnlyStaging : Fs := fun d =>
  if d = "target_releases/linux/arm64" then ["martin", "martin-cp", "mbtiles"]
  else []

/-- A tree whose arm64 platform directory holds a stale file while the
aarch64 staging directory holds a fresh build. -/
def staleDestFs : Fs := fun d =>
  if d = "target_releases/aarch64-unknown-linux-musl" then
    ["martin", "martin-cp", "mbtiles"]
  else if d = "target_releases/linux/arm64" then ["stale-bin"]
  else []

/-- A tree with one populated per-triple staging directory. -/
def freshSrcFs : Fs := fun d =>
  if d = "target_releases/x86_64-unknown-linux-musl" then
    ["martin", "martin-cp", "mbtiles"]
  else []

/-- A job in which everything succeeds except the amd64 push. -/
def amdPushFailCfg : JobConfig :=
  { buildOk := fun _ _ => true, repoExists := true,
    createOutcome := .Created, pushOk := fun p => p == "linux/arm64" }

/-- A job in which every external call succeeds. -/
def allOkCfg : JobConfig :=
  { buildOk := fun _ _ => true, repoExists := true,
    createOutcome := .Created, pushOk := fun _ => true }

/-- A job in which the first target's builds fail. -/
def buildFailCfg : JobConfig :=
  { buildOk := fun t _ => t != "aarch64-unknown-linux-musl",
    repoExists := true, createOutcome := .Created, pushOk := fun _ => true }

/-- A job in which the repository is absent and the create call fails
with a network error. -/
def fatalCreateCfg : JobConfig :=
  { buildOk := fun _ _ => true, repoExists := false,
    createOutcome := .Network, pushOk := fun _ => true }

/-- Invariant of the two-caller provisioning race: at most one create
ever succeeds, the repository exists exactly when a create happened, a
finished caller — successful or not — implies the repository exists,
and a caller that observed the repository existing cannot be wrong. -/
def RaceInv (s : RaceState) : Prop :=
  s.createCount ≤ 1 ∧
  (s.repoExists = true ↔ s.createCount = 1) ∧
  (∀ i r, s.pc i = .done r → s.repoExists = true) ∧
  (∀ i, s.pc i = .checked true → s.repoExists = true)

/-! ## Theorems -/

/-- The race invariant holds initially. -/
lemma raceInv_init : RaceInv raceInit := by
  refine ⟨by simp [raceInit], by simp [raceInit], ?_, ?_⟩ <;>
    intro i <;> simp [raceInit]

/-- One step of either caller preserves the race invariant. -/
lemma raceStep_inv {s : RaceState} (i : Fin 2) (hs : RaceInv s) :
    RaceInv (raceStep s i) := by
  obtain ⟨hle, hiff, hdone, hchk⟩ := hs
  cases hpc : s.pc i with
  | start =>
      rw [raceStep, hpc]
      refine ⟨hle, hiff, ?_, ?_⟩
      · intro j r hj
        by_cases hji : j = i
        · subst hji
          simp only [Function.update_same] at hj
          exact absurd hj (by simp)
        · simp only [Function.update_noteq hji] at hj
          exact hdone j r hj
      · intro j hj
        by_cases hji : j = i
        · subst hji
          simp only [Function.update_same] at hj
          exact CallerPC.checked.inj hj
        · simp only [Function.update_noteq hji] at hj
          exact hchk j hj
  | checked b =>
      cases b with
      | true =>
          have hrepo : s.repoExists = true := hchk i hpc
          rw [raceStep, hpc]
          refine ⟨hle, hiff, ?_, ?_⟩
          · intro j r hj
            exact hrepo
          · intro j hj
            exact hrepo
      | false =>
          by_cases hrepo : s.repoExists = true
          · rw [raceStep, hpc, if_pos hrepo]
            refine ⟨hle, hiff, ?_, ?_⟩
            · intro j r hj
              exact hrepo
            · intro j hj
              exact hrepo
          · have hcnt : s.createCount = 0 := by
              rcases Nat.lt_or_ge s.createCount 1 with h1 | h1
              · omega
              · exact absurd (hiff.mpr (by omega)) hrepo
            rw [raceStep, hpc, if_neg hrepo]
            refine ⟨by simp [hcnt], by simp [hcnt], ?_, ?_⟩
            · intro j r hj
              rfl
            · intro j hj
              rfl
  | done r =>
      rw [raceStep, hpc]
      exact ⟨hle, hiff, hdone, hchk⟩

/-- The race invariant holds after any interleaving schedule. -/
lemma raceRun_inv (sched : List (Fin 2)) : RaceInv (raceRun sched) := by
  have haux : ∀ (l : List (Fin 2)) (s : RaceState), RaceInv s →
      RaceInv (l.foldl raceStep s) := by
    intro l
    induction l with
    | nil => exact fun s hs => hs
    | cons i l ih => exact fun s hs => ih _ (raceStep_inv i hs)
  exact haux sched raceInit raceInv_init

/-- A non-existing repository and a create call that does not succeed
make the `describe || create` step fail. -/
lemma ensureRepoStep_fatal {repoExists : Bool} {oc : CreateOutcome}
    (h1 : repoExists = false) (h2 : oc ≠ .Created) :
    ensureRepoStep repoExists oc = .error (.provisionFailed oc.label) := by
  subst h1
  cases oc with
  | Created => exact absurd rfl h2
  | AlreadyExists => rfl
  | PermissionDenied => rfl
  | Quota => rfl
  | Network => rfl

/-- The build loop only appends build events to the trace. -/
lemma buildTargetsLoop_events (buildOk : String → String → Bool) :
    ∀ (ts : List String) (env : FlagEnv) (fs : Fs) (evs : List Event),
      ∃ tail, (buildTargetsLoop buildOk ts env fs evs).events = evs ++ tail ∧
        ∀ e ∈ tail, e.isBuild = true := by
  intro ts
  induction ts with
  | nil =>
      intro env fs evs
      exact ⟨[], by simp [buildTargetsLoop], by simp⟩
  | cons t ts ih =>
      intro env fs evs
      rw [buildTargetsLoop]
      cases hc : buildIteration buildOk env fs t with
      | ok p =>
          obtain ⟨env', fs'⟩ := p
          simp only [hc]
          obtain ⟨tail, htl, hall⟩ := ih env' fs' (evs ++ [.build t])
          refine ⟨[Event.build t] ++ tail, ?_, ?_⟩
          · rw [htl]
            simp
          · intro e he
            rcases List.mem_append.mp he with h | h
            · simp only [List.mem_singleton] at h
              subst h
              rfl
            · exact hall e h
      | error e =>
          simp only [hc]
          refine ⟨[Event.build t], by simp, ?_⟩
          intro e he
          simp only [List.mem_singleton] at he
          subst he
          rfl

/-- The docker phase only emits push events. -/
lemma dockerPhase_events (fs : Fs) (pushOk : String → Bool)
    (tag0 : Option (List String)) :
    ∀ e ∈ (dockerPhase fs pushOk tag0).2.1, e.isPush = true := by
  unfold dockerPhase
  cases dockerBuildPush fs pushOk "linux/arm64" "target_releases/linux/arm64" with
  | error e =>
      intro e he
      simp at he
  | ok t1 =>
      cases dockerBuildPush fs pushOk "linux/amd64" "target_releases/linux/amd64" with
      | error e =>
          intro e he
          simp only [List.mem_singleton] at he
          subst he
          rfl
      | ok t2 =>
          intro e he
          simp only [List.mem_cons, List.mem_singleton] at he
          rcases he with rfl | rfl | he
          · rfl
          · rfl
          · simp at he

/-- Claim C1 counterexample: with both platforms staged and all builds
succeeding, a failing amd64 push fails the job, yet the shared tag HAS
been observably updated — from no image to the arm64-only image — so a
manifest missing a requested platform was published, contradicting the
claim's "no update of the shared image tag is observable". -/
theorem push_failure_updates_tag_counterexample :
    (runJob amdPushFailCfg emptyFs none).success = false ∧
    (runJob amdPushFailCfg emptyFs none).tag = some ["linux/arm64"] ∧
    (runJob amdPushFailCfg emptyFs none).tag ≠ none ∧
    ¬ "linux/amd64" ∈ ["linux/arm64"] := by
  decide

/-- Claim C1 (amended): if any platform's push fails the publish phase
fails as a whole, but the tag is guaranteed unchanged only when the
FIRST (arm64) push fails; when the second (amd64) push fails the tag has
been overwritten with the arm64-only image, observable to consumers. -/
theorem push_failure_not_atomic (fs : Fs) (pushOk : String → Bool)
    (tag0 : Option (List String))
    (h1 : fs "target_releases/linux/arm64" ≠ [])
    (h2 : fs "target_releases/linux/amd64" ≠ []) :
    (pushOk "linux/arm64" = false →
      dockerPhase fs pushOk tag0
        = (tag0, [], some (.imageFailed "linux/arm64"))) ∧
    (pushOk "linux/arm64" = true → pushOk "linux/amd64" = false →
      (dockerPhase fs pushOk tag0).1 = some ["linux/arm64"] ∧
      (dockerPhase fs pushOk tag0).2.2
        = some (.imageFailed "linux/amd64")) := by
  constructor
  · intro hp
    simp [dockerPhase, dockerBuildPush, h1, hp]
  · intro hpa hpb
    simp [dockerPhase, dockerBuildPush, h1, h2, hpa, hpb]

/-- Claim C1 witness: the amended behaviour at a fully staged tree with
only the arm64 push succeeding. -/
theorem push_failure_not_atomic_witness :
    (((fun p => p == "linux/arm64") : String → Bool) "linux/arm64" = false →
      dockerPhase demoStaging (fun p => p == "linux/arm64") none
        = (none, [], some (.imageFailed "linux/arm64"))) ∧
    (((fun p => p == "linux/arm64") : String → Bool) "linux/arm64" = true →
      ((fun p => p == "linux/arm64") : String → Bool) "linux/amd64" = false →
      (dockerPhase demoStaging (fun p => p == "linux/arm64") none).1
        = some ["linux/arm64"] ∧
      (dockerPhase demoStaging (fun p => p == "linux/arm64") none).2.2
        = some (.imageFailed "linux/amd64")) :=
  push_failure_not_atomic demoStaging (fun p => p == "linux/arm64") none
    (by decide) (by decide)

/-- Claim C2 counterexample: in the all-success run the job succeeds,
yet the shared tag references the amd64-only image pushed last — no
multi-architecture manifest containing both requested platforms is ever
assembled, contradicting the claim. -/
theorem success_lacks_multiarch_manifest_counterexample :
    (runJob allOkCfg emptyFs none).success = true ∧
    (runJob allOkCfg emptyFs none).tag = some ["linux/amd64"] ∧
    ¬ "linux/arm64" ∈ ["linux/amd64"] := by
  decide

/-- Claim C2 (amended): on a fully staged tree with both pushes
succeeding, the job pushes one single-platform image per platform, in
order, each overwriting the shared tag, so the publish succeeds and the
tag afterwards references only the last-pushed platform (linux/amd64). -/
theorem publish_sequential_overwrites_tag (fs : Fs) (pushOk : String → Bool)
    (tag0 : Option (List String))
    (h1 : fs "target_releases/linux/arm64" ≠ [])
    (h2 : fs "target_releases/linux/amd64" ≠ [])
    (hpa : pushOk "linux/arm64" = true) (hpb : pushOk "linux/amd64" = true) :
    dockerPhase fs pushOk tag0
      = (some ["linux/amd64"],
         [.push "linux/arm64", .push "linux/amd64"], none) := by
  simp [dockerPhase, dockerBuildPush, h1, h2, hpa, hpb]

/-- Claim C2 witness: the all-success publish at a fully staged tree. -/
theorem publish_sequential_overwrites_tag_witness :
    dockerPhase demoStaging (fun _ => true) none
      = (some ["linux/amd64"],
         [.push "linux/arm64", .push "linux/amd64"], none) :=
  publish_sequential_overwrites_tag demoStaging (fun _ => true) none
    (by decide) (by decide) rfl rfl

/-- Claim C3 counterexample: in the interleaving where both callers
describe before either creates, caller 0 creates and finishes cleanly
while caller 1's create fails with an already-exists error, which the
`describe || create` chain reports as a FATAL step failure —
contradicting the claim's "no fatal error from either caller". -/
theorem race_create_fails_fatally_counterexample :
    (raceRun [0, 1, 0, 1]).pc 0 = .done true ∧
    (raceRun [0, 1, 0, 1]).pc 1 = .done false ∧
    (raceRun [0, 1, 0, 1]).createCount = 1 ∧
    (raceRun [0, 1, 0, 1]).repoExists = true := by
  decide

/-- Claim C3 (amended): under every interleaving of two concurrent
`describe || create` steps for the same name, at most one create
succeeds and, once both callers finish, exactly one logical repository
exists; a caller that runs once the repository exists succeeds without
creating (sequential idempotence); but the step is not race-tolerant —
a caller whose create races the other's completed creation fails
fatally, as the counterexample schedule shows. -/
theorem ensureRepository_race_behavior (sched : List (Fin 2)) :
    (raceRun sched).createCount ≤ 1 ∧
    (∀ i r, (raceRun sched).pc i = .done r →
      (raceRun sched).repoExists = true) ∧
    ((∃ r0, (raceRun sched).pc 0 = .done r0) →
      (∃ r1, (raceRun sched).pc 1 = .done r1) →
      (raceRun sched).createCount = 1 ∧ (raceRun sched).repoExists = true) ∧
    (∀ oc, ensureRepoStep true oc = .ok true) := by
  obtain ⟨hle, hiff, hdone, hchk⟩ := raceRun_inv sched
  refine ⟨hle, hdone, ?_, fun oc => rfl⟩
  rintro ⟨r0, h0⟩ ⟨r1, h1⟩
  have hrepo := hdone 0 r0 h0
  exact ⟨hiff.mp hrepo, hrepo⟩

/-- Claim C3 witness: the sequential schedule in which caller 0 finishes
before caller 1 starts its create decision — both finish cleanly. -/
theorem ensureRepository_race_behavior_witness :
    (raceRun [0, 0, 1, 1]).pc 0 = .done true ∧
    (raceRun [0, 0, 1, 1]).pc 1 = .done true ∧
    ((raceRun [0, 0, 1, 1]).createCount ≤ 1 ∧
    (∀ i r, (raceRun [0, 0, 1, 1]).pc i = .done r →
      (raceRun [0, 0, 1, 1]).repoExists = true) ∧
    ((∃ r0, (raceRun [0, 0, 1, 1]).pc 0 = .done r0) →
      (∃ r1, (raceRun [0, 0, 1, 1]).pc 1 = .done r1) →
      (raceRun [0, 0, 1, 1]).createCount = 1 ∧
      (raceRun [0, 0, 1, 1]).repoExists = true) ∧
    (∀ oc, ensureRepoStep true oc = .ok true)) :=
  ⟨by decide, by decide, ensureRepository_race_behavior [0, 0, 1, 1]⟩

/-- Claim C4 counterexample: with only arm64 staged, the publish phase
does not fail fast before any push — the arm64 image is built AND
pushed (the tag is observably updated) before the amd64 step fails, and
the failure is that step's image build error, not a cross-platform
precondition check. -/
theorem no_missing_platform_precondition_counterexample :
    dockerPhase armOnlyStaging (fun _ => true) none
      = (some ["linux/arm64"], [.push "linux/arm64"],
         some (.imageFailed "linux/amd64")) ∧
    some ["linux/arm64"] ≠ (none : Option (List String)) := by
  decide

/-- Claim C4 (amended): there is no precondition check over the
requested platforms — each docker step fails only on its own missing
artifacts. A publish whose arm64 staging directory is empty fails with
no push and an unchanged tag; a publish whose amd64 staging directory is
empty never succeeds, but only fails at the amd64 step, after any
earlier arm64 push has already updated the tag. -/
theorem missing_platform_fails_without_precondition (fs : Fs)
    (pushOk : String → Bool) (tag0 : Option (List String)) :
    (fs "target_releases/linux/arm64" = [] →
      dockerPhase fs pushOk tag0
        = (tag0, [], some (.imageFailed "linux/arm64"))) ∧
    (fs "target_releases/linux/amd64" = [] →
      (dockerPhase fs pushOk tag0).2.2 ≠ none) := by
  constructor
  · intro h
    simp [dockerPhase, dockerBuildPush, h]
  · intro h
    unfold dockerPhase
    cases hd : dockerBuildPush fs pushOk "linux/arm64"
        "target_releases/linux/arm64" with
    | error e => simp
    | ok t1 => simp [dockerBuildPush, h]

/-- Claim C4 witness: the amended behaviour at the empty staging tree. -/
theorem missing_platform_fails_without_precondition_witness :
    (emptyFs "target_releases/linux/arm64" = [] →
      dockerPhase emptyFs (fun _ => true) none
        = (none, [], some (.imageFailed "linux/arm64"))) ∧
    (emptyFs "target_releases/linux/amd64" = [] →
      (dockerPhase emptyFs (fun _ => true) none).2.2 ≠ none) :=
  missing_platform_fails_without_precondition emptyFs (fun _ => true) none

/-- Claim C5 counterexample: when the first target's build fails, the
job's trace shows the second target was never built — the `bash -e`
loop aborts on the first failure instead of continuing with the sibling
targets, contradicting the claim's continue-then-fail policy. -/
theorem build_failure_aborts_siblings_counterexample :
    (runJob buildFailCfg emptyFs none).events
      = [.build "aarch64-unknown-linux-musl"] ∧
    ¬ Event.build "x86_64-unknown-linux-musl"
        ∈ (runJob buildFailCfg emptyFs none).events ∧
    (runJob buildFailCfg emptyFs none).success = false := by
  decide

/-- Claim C5 (amended): a build failure for one target aborts the
remaining targets' builds immediately — the loop stops at the failing
iteration with the later targets unprocessed and the filesystem
untouched by them — and the overall run is marked failed. -/
theorem build_failure_aborts_remaining :
    (∀ (buildOk : String → String → Bool) (env : FlagEnv) (fs : Fs)
        (evs : List Event) (t : String) (ts : List String) (e : StepError),
      buildIteration buildOk env fs t = .error e →
      buildTargetsLoop buildOk (t :: ts) env fs evs
        = { events := evs ++ [.build t], flagEnv := env, fs := fs,
            stepError := some e }) ∧
    (∀ (cfg : JobConfig) (fs0 : Fs) (tag0 : Option (List String)),
      (buildTargetsLoop cfg.buildOk jobTargets (fun _ => none) fs0 []).stepError
        ≠ none →
      (runJob cfg fs0 tag0).success = false) := by
  constructor
  · intro buildOk env fs evs t ts e h
    rw [buildTargetsLoop, h]
  · intro cfg fs0 tag0 h
    unfold runJob afterBuild
    cases hse : (buildTargetsLoop cfg.buildOk jobTargets (fun _ => none)
        fs0 []).stepError with
    | none => exact absurd hse h
    | some e => rfl

/-- Claim C5 witness: the concrete job whose first target fails at its
`mbtiles` build. -/
theorem build_failure_aborts_remaining_witness :
    buildTargetsLoop buildFailCfg.buildOk
        ("aarch64-unknown-linux-musl" :: ["x86_64-unknown-linux-musl"])
        (fun _ => none) emptyFs []
      = { events := [] ++ [.build "aarch64-unknown-linux-musl"],
          flagEnv := fun _ => none, fs := emptyFs,
          stepError := some (.buildFailed "aarch64-unknown-linux-musl"
            "mbtiles") } ∧
    (runJob buildFailCfg emptyFs none).success = false :=
  ⟨build_failure_aborts_remaining.1 buildFailCfg.buildOk (fun _ => none)
      emptyFs [] "aarch64-unknown-linux-musl" ["x86_64-unknown-linux-musl"]
      (.buildFailed "aarch64-unknown-linux-musl" "mbtiles") rfl,
   build_failure_aborts_remaining.2 buildFailCfg emptyFs none (by decide)⟩

/-- Claim C6: in a run whose build loop and reorganize step succeed, the
trace is build events, then exactly one provisioning event, then only
push events — provisioning runs once, after all collection and before
any push — and when the repository is absent and the create call fails
with anything other than already-exists, no push happens at all and the
run is marked failed. -/
theorem provision_once_between_collect_and_push (cfg : JobConfig) (fs0 : Fs)
    (tag0 : Option (List String))
    (hb : (buildTargetsLoop cfg.buildOk jobTargets (fun _ => none)
      fs0 []).stepError = none)
    (hr : resultOk (reorganizeStep (buildTargetsLoop cfg.buildOk jobTargets
      (fun _ => none) fs0 []).fs) = true) :
    ∃ post,
      (runJob cfg fs0 tag0).events
        = (buildTargetsLoop cfg.buildOk jobTargets (fun _ => none) fs0 []).events
          ++ [Event.provision] ++ post ∧
      (∀ e ∈ (buildTargetsLoop cfg.buildOk jobTargets (fun _ => none)
        fs0 []).events, e.isBuild = true) ∧
      (∀ e ∈ post, e.isPush = true) ∧
      Event.provision ∉ (buildTargetsLoop cfg.buildOk jobTargets (fun _ => none)
        fs0 []).events ∧
      Event.provision ∉ post ∧
      (cfg.repoExists = false → cfg.createOutcome ≠ .Created →
        cfg.createOutcome ≠ .AlreadyExists →
        post = [] ∧ (runJob cfg fs0 tag0).success = false) := by
  have hpre : ∀ e ∈ (buildTargetsLoop cfg.buildOk jobTargets (fun _ => none)
      fs0 []).events, e.isBuild = true := by
    obtain ⟨tail, htl, hall⟩ := buildTargetsLoop_events cfg.buildOk jobTargets
      (fun _ => none) fs0 []
    rw [htl]
    simpa using hall
  have hprenp : Event.provision ∉ (buildTargetsLoop cfg.buildOk jobTargets
      (fun _ => none) fs0 []).events := by
    intro hmem
    have := hpre _ hmem
    simp [Event.isBuild] at this
  unfold runJob afterBuild
  simp only [hb]
  cases hro : reorganizeStep (buildTargetsLoop cfg.buildOk jobTargets
      (fun _ => none) fs0 []).fs with
  | error e =>
      rw [hro] at hr
      simp [resultOk] at hr
  | ok fs2 =>
      cases hprov : ensureRepoStep cfg.repoExists cfg.createOutcome with
      | error e =>
          refine ⟨[], by simp, hpre, ?_, hprenp, ?_, ?_⟩
          · intro e he
            simp at he
          · simp
          · intro _ _ _
            exact ⟨rfl, rfl⟩
      | ok b =>
          refine ⟨(dockerPhase fs2 cfg.pushOk tag0).2.1, rfl, hpre,
            dockerPhase_events fs2 cfg.pushOk tag0, hprenp, ?_, ?_⟩
          · intro hmem
            have := dockerPhase_events fs2 cfg.pushOk tag0 _ hmem
            simp [Event.isPush] at this
          · intro hre hc _
            have := ensureRepoStep_fatal hre hc
            exact absurd (hprov.symm.trans this) (by simp)

/-- Claim C6 witness: the run whose repository create fails with a
network error — provisioning happens once after the builds, and no push
follows. -/
theorem provision_once_between_collect_and_push_witness :
    (buildTargetsLoop fatalCreateCfg.buildOk jobTargets (fun _ => none)
      emptyFs []).stepError = none ∧
    resultOk (reorganizeStep (buildTargetsLoop fatalCreateCfg.buildOk
      jobTargets (fun _ => none) emptyFs []).fs) = true ∧
    (∃ post,
      (runJob fatalCreateCfg emptyFs none).events
        = (buildTargetsLoop fatalCreateCfg.buildOk jobTargets (fun _ => none)
            emptyFs []).events ++ [Event.provision] ++ post ∧
      (∀ e ∈ (buildTargetsLoop fatalCreateCfg.buildOk jobTargets
        (fun _ => none) emptyFs []).events, e.isBuild = true) ∧
      (∀ e ∈ post, e.isPush = true) ∧
      Event.provision ∉ (buildTargetsLoop fatalCreateCfg.buildOk jobTargets
        (fun _ => none) emptyFs []).events ∧
      Event.provision ∉ post ∧
      (fatalCreateCfg.repoExists = false →
        fatalCreateCfg.createOutcome ≠ .Created →
        fatalCreateCfg.createOutcome ≠ .AlreadyExists →
        post = [] ∧ (runJob fatalCreateCfg emptyFs none).success = false)) :=
  ⟨by decide, by decide,
   provision_once_between_collect_and_push fatalCreateCfg emptyFs none
     (by decide) (by decide)⟩

/-- Claim C7 counterexample: collecting a fresh aarch64 build into a
destination directory that already holds a stale file succeeds, but the
directory afterwards holds the stale file alongside the fresh binaries —
`mv` unions rather than replaces, so the platform directory does NOT
contain exactly the binaries produced by that build. -/
theorem collect_keeps_stale_files_counterexample :
    resultOk (mvGlob staleDestFs "target_releases/aarch64-unknown-linux-musl"
      "target_releases/linux/arm64") = true ∧
    fsAfter (mvGlob staleDestFs "target_releases/aarch64-unknown-linux-musl"
      "target_releases/linux/arm64") "target_releases/linux/arm64"
      = ["martin", "martin-cp", "mbtiles", "stale-bin"] ∧
    ¬ "stale-bin" ∈ staleDestFs "target_releases/aarch64-unknown-linux-musl" := by
  decide

/-- Claim C7 (amended): the collect `mv` moves — not copies — every
binary, preserving filenames (the source directory is emptied, other
directories are untouched, `mkdir -p` makes the destination exist), and
the destination contains exactly the moved binaries PROVIDED it was
empty beforehand, as it is in the workflow where it is freshly created;
with pre-existing contents, unrelated stale files persist. -/
theorem collect_into_empty_dir_exact (fs : Fs) (src dest : String)
    (hne : src ≠ dest) (hsrc : fs src ≠ []) (hdest : fs dest = []) :
    ∃ fs', mvGlob fs src dest = .ok fs' ∧
      fs' dest = fs src ∧ fs' src = [] ∧
      ∀ d, d ≠ src → d ≠ dest → fs' d = fs d := by
  refine ⟨fun d =>
      if d = dest then fs src ++ (fs dest).filter (fun f => ¬ f ∈ fs src)
      else if d = src then [] else fs d, ?_, ?_, ?_, ?_⟩
  · unfold mvGlob
    rw [if_neg hsrc]
  · simp [hdest]
  · simp [hne]
  · intro d hds hdd
    simp [hds, hdd]

/-- Claim C7 witness: a fresh x86_64 build collected into an empty
amd64 platform directory. -/
theorem collect_into_empty_dir_exact_witness :
    "target_releases/x86_64-unknown-linux-musl" ≠ "target_releases/linux/amd64" ∧
    freshSrcFs "target_releases/x86_64-unknown-linux-musl" ≠ [] ∧
    freshSrcFs "target_releases/linux/amd64" = [] ∧
    ∃ fs', mvGlob freshSrcFs "target_releases/x86_64-unknown-linux-musl"
        "target_releases/linux/amd64" = .ok fs' ∧
      fs' "target_releases/linux/amd64"
        = freshSrcFs "target_releases/x86_64-unknown-linux-musl" ∧
      fs' "target_releases/x86_64-unknown-linux-musl" = [] ∧
      ∀ d, d ≠ "target_releases/x86_64-unknown-linux-musl" →
        d ≠ "target_releases/linux/amd64" → fs' d = freshSrcFs d :=
  ⟨by decide, by decide, by decide,
   collect_into_empty_dir_exact freshSrcFs
     "target_releases/x86_64-unknown-linux-musl" "target_releases/linux/amd64"
     (by decide) (by decide) (by decide)⟩

/-- Claim C8 counterexample: after one successful collect, re-running
the same collect fails with an `mv` error — the source glob is empty —
so collection is NOT idempotent: the rerun does not overwrite the
destination, it fails the step. -/
theorem collect_rerun_errors_counterexample :
    resultOk (mvGlob freshSrcFs "target_releases/x86_64-unknown-linux-musl"
      "target_releases/linux/amd64") = true ∧
    isMvError (collectTwice freshSrcFs
      "target_releases/x86_64-unknown-linux-musl"
      "target_releases/linux/amd64") = true ∧
    resultOk (collectTwice freshSrcFs
      "target_releases/x86_64-unknown-linux-musl"
      "target_releases/linux/amd64") = false := by
  decide

/-- Claim C8 (amended): a successful collect empties its source
directory, so re-running the collect for the same bundle fails with an
`mv` error instead of overwriting — the destination keeps exactly what
the single successful run left there. -/
theorem collect_rerun_fails (fs : Fs) (src dest : String) (hne : src ≠ dest)
    (hok : resultOk (mvGlob fs src dest) = true) :
    fsAfter (mvGlob fs src dest) src = [] ∧
    isMvError (collectTwice fs src dest) = true := by
  by_cases hsrc : fs src = []
  · rw [mvGlob, if_pos hsrc] at hok
    simp [resultOk] at hok
  · have hm : mvGlob fs src dest = .ok (fun d =>
        if d = dest then fs src ++ (fs dest).filter (fun f => ¬ f ∈ fs src)
        else if d = src then [] else fs d) := by
      unfold mvGlob
      rw [if_neg hsrc]
    constructor
    · rw [hm]
      simp [fsAfter, hne]
    · unfold collectTwice
      simp only [hm]
      simp [mvGlob, hne, isMvError]

/-- Claim C8 witness: the concrete rerun on the fresh x86_64 staging
directory. -/
theorem collect_rerun_fails_witness :
    "target_releases/x86_64-unknown-linux-musl" ≠ "target_releases/linux/amd64" ∧
    resultOk (mvGlob freshSrcFs "target_releases/x86_64-unknown-linux-musl"
      "target_releases/linux/amd64") = true ∧
    (fsAfter (mvGlob freshSrcFs "target_releases/x86_64-unknown-linux-musl"
      "target_releases/linux/amd64") "target_releases/x86_64-unknown-linux-musl"
      = [] ∧
    isMvError (collectTwice freshSrcFs
      "target_releases/x86_64-unknown-linux-musl"
      "target_releases/linux/amd64") = true) :=
  ⟨by decide, by decide,
   collect_rerun_fails freshSrcFs "target_releases/x86_64-unknown-linux-musl"
     "target_releases/linux/amd64" (by decide) (by decide)⟩

/-- Claim C9 counterexample: the `tr`-derived variable name is not
injective — the distinct triples `a-b` and `a_b` share the variable
`CARGO_TARGET_A_B_RUSTFLAGS`, so setting the flags for one changes what
the other's toolchain invocation reads, contradicting the claim's
"for any two distinct targets the flag settings made for one target
never affect the toolchain invocation for the other". -/
theorem rustflags_name_collision_counterexample :
    ("a-b" : String) ≠ "a_b" ∧
    rustflagsVar "a-b" = rustflagsVar "a_b" ∧
    readRustflags (setRustflags (fun _ => none) "a-b" "-C strip=debuginfo")
      "a_b" = some "-C strip=debuginfo" ∧
    readRustflags (fun _ => none) "a_b" = none := by
  decide

/-- Claim C9 (amended): the flags variable of each target is named from
its triple alone via `tr 'a-z-' 'A-Z_'`; for two targets whose DERIVED
names differ — in particular the two triples this workflow builds —
setting one target's flags never changes what the other reads, and with
both set, in either order, each invocation reads exactly its own
flags. -/
theorem rustflags_noninterference_distinct_vars (env : FlagEnv)
    (v1 v2 t1 t2 : String) (hne : rustflagsVar t1 ≠ rustflagsVar t2) :
    readRustflags (setRustflags env t1 v1) t2 = readRustflags env t2 ∧
    readRustflags (setRustflags (setRustflags env t1 v1) t2 v2) t1
      = some v1 ∧
    readRustflags (setRustflags (setRustflags env t2 v2) t1 v1) t2
      = some v2 := by
  have hne' : rustflagsVar t2 ≠ rustflagsVar t1 := fun h => hne h.symm
  refine ⟨?_, ?_, ?_⟩ <;> simp [readRustflags, setRustflags, hne, hne']

/-- Claim C9 witness: the two triples the workflow builds derive
distinct variable names, and neither's export affects the other. -/
theorem rustflags_noninterference_distinct_vars_witness :
    rustflagsVar "aarch64-unknown-linux-musl"
      ≠ rustflagsVar "x86_64-unknown-linux-musl" ∧
    (readRustflags (setRustflags (fun _ => none) "aarch64-unknown-linux-musl"
        "-C strip=debuginfo") "x86_64-unknown-linux-musl"
      = readRustflags (fun _ => none) "x86_64-unknown-linux-musl" ∧
    readRustflags (setRustflags (setRustflags (fun _ => none)
        "aarch64-unknown-linux-musl" "-C strip=debuginfo")
        "x86_64-unknown-linux-musl" "-C opt-level=2")
        "aarch64-unknown-linux-musl" = some "-C strip=debuginfo" ∧
    readRustflags (setRustflags (setRustflags (fun _ => none)
        "x86_64-unknown-linux-musl" "-C opt-level=2")
        "aarch64-unknown-linux-musl" "-C strip=debuginfo")
        "x86_64-unknown-linux-musl" = some "-C opt-level=2") :=
  ⟨by decide,
   rustflags_noninterference_distinct_vars (fun _ => none)
     "-C strip=debuginfo" "-C opt-level=2" "aarch64-unknown-linux-musl"
     "x86_64-unknown-linux-musl" (by decide)⟩

/-- Claim C10: when both targets build successfully, the build loop
leaves exactly the three binaries `martin`, `martin-cp` and `mbtiles`
in each triple's staging directory, and the reorganize step relocates
exactly those three files into each platform directory. -/
theorem build_collect_exactly_three_binaries :
    (buildTargetsLoop (fun _ _ => true) jobTargets (fun _ => none)
      emptyFs []).stepError = none ∧
    (buildTargetsLoop (fun _ _ => true) jobTargets (fun _ => none)
      emptyFs []).fs (stagingDir "aarch64-unknown-linux-musl")
      = ["mbtiles", "martin-cp", "martin"] ∧
    (buildTargetsLoop (fun _ _ => true) jobTargets (fun _ => none)
      emptyFs []).fs (stagingDir "x86_64-unknown-linux-musl")
      = ["mbtiles", "martin-cp", "martin"] ∧
    resultOk (reorganizeStep (buildTargetsLoop (fun _ _ => true) jobTargets
      (fun _ => none) emptyFs []).fs) = true ∧
    fsAfter (reorganizeStep (buildTargetsLoop (fun _ _ => true) jobTargets
      (fun _ => none) emptyFs []).fs) "target_releases/linux/arm64"
      = ["mbtiles", "martin-cp", "martin"] ∧
    fsAfter (reorganizeStep (buildTargetsLoop (fun _ _ => true) jobTargets
      (fun _ => none) emptyFs []).fs) "target_releases/linux/amd64"
      = ["mbtiles", "martin-cp", "martin"] := by
  decide

end Martin
